import Mathlib

/-!
Verification of `src/text_classifier.py` (a lexical / readability statistics
utility) against its natural-language specification.

Modelling conventions:
* Python strings are Lean `String`s; ASCII models of `str.lower`, `str.strip`,
  `str.isalpha` are given below (`pyLower`, `pyStrip`, `pyIsAlpha`).
* The external linguistic collaborators (NLTK sentence splitter, word
  tokenizer, POS tagger, WordNet lemmatizer, CMU pronouncing dictionary,
  and the `re` regex engine) are black boxes per the spec; they are fields
  of an abstract environment `Env`, universally quantified in theorems and
  instantiated with concrete toy values in closed corollaries.
* Python floats are modelled as exact rationals (`ℚ`); `round(x, 3)` is
  modelled as rounding `x * 1000` to the nearest integer (`pyRound3`).
* Fallible Python code (an unguarded division that can raise
  `ZeroDivisionError`) is modelled with `Except`.
* Lazy generators are materialized as eager lists (the spec notes this is
  behaviorally equivalent: no infinite sequences arise).
-/

/-- ASCII model of Python whitespace (the characters `str.strip` removes). -/
def isPySpace (c : Char) : Bool :=
  c == ' ' || c == '\t' || c == '\n' || c == '\r' ||
  c == Char.ofNat 11 || c == Char.ofNat 12

/-- Model of Python `str.strip()`: drop leading and trailing whitespace. -/
def pyStrip (s : String) : String :=
  String.mk (((s.toList.dropWhile isPySpace).reverse.dropWhile isPySpace).reverse)

/-- ASCII model of Python `str.lower` on one character. -/
def pyLowerChar (c : Char) : Char :=
  if 65 ≤ c.toNat ∧ c.toNat ≤ 90 then Char.ofNat (c.toNat + 32) else c

/-- ASCII model of Python `str.lower()`. -/
def pyLower (s : String) : String :=
  String.mk (s.toList.map pyLowerChar)

/-- ASCII model of Python `str.isalpha()`: nonempty and all characters letters. -/
def pyIsAlpha (w : String) : Bool :=
  !w.toList.isEmpty && w.toList.all Char.isAlpha

/-- Model of Python `phone[-1].isdigit()` (the phoneme strings of the
pronouncing dictionary are nonempty, so taking the optional last character
is faithful there). -/
def lastCharIsDigit (s : String) : Bool :=
  (s.toList.getLast?).elim false Char.isDigit

/-- The vowel set `self.__vowels = {"a", "e", "i", "o", "u", "y"}` set in
`__init__`. -/
def pyVowels : List Char := ['a', 'e', 'i', 'o', 'u', 'y']

/-- The external collaborators of the classifier, per spec §6: sentence
splitter, word tokenizer, POS tagger, lemmatizer (taking the `'v'`/`'n'`
part-of-speech hint string), pronouncing dictionary (`cmudict.dict()`:
lower-cased word to list of pronunciation variants, each a list of phoneme
codes), and the regex engine (`re.search`, taking pattern, text and an
ignore-case flag, returning either a pattern-syntax error for an invalid
pattern or the optional position of the first match). -/
structure Env where
  sentTokenize : String → List String
  wordTokenize : String → List String
  posTag : List String → List (String × String)
  wnLemmatize : String → String → String
  pdict : String → Option (List (List String))
  reSearch : String → String → Bool → Except String (Option Nat)

/-- `TextClassifier.__lemmatize`: lemmatize under the verb hint; if the
result equals the input word, lemmatize under the noun hint instead. -/
def lemmatize (env : Env) (word : String) : String :=
  let lem := env.wnLemmatize word "v"
  if lem = word then env.wnLemmatize word "n" else lem

/-- Per-sentence tokenization of `__preprocess_text`:
`[word.strip() for word in word_tokenize(sent) if word.strip()]`. -/
def tokenizeSent (env : Env) (sent : String) : List String :=
  ((env.wordTokenize sent).map pyStrip).filter (fun w => w != "")

/-- One untagged processed sentence of `__preprocess_text`
(`tagged=False`, optional lemmatization). -/
def processedSent (env : Env) (lemmatized : Bool) (sent : String) : List String :=
  let t := tokenizeSent env sent
  if lemmatized then t.map (lemmatize env) else t

/-- One tagged processed sentence of `__preprocess_text` (`tagged=True`):
POS-tag the tokenized sentence as a unit, then optionally replace each
surface form with its lemma, keeping the tag. -/
def processedTaggedSent (env : Env) (lemmatized : Bool) (sent : String) :
    List (String × String) :=
  let t := env.posTag (tokenizeSent env sent)
  if lemmatized then t.map (fun x => (lemmatize env x.1, x.2)) else t

/-- `TextClassifier.sents`: `__preprocess_text(is_sent=True, tagged=False)`. -/
def sents (env : Env) (text : String) (lemmatized : Bool) : List (List String) :=
  (env.sentTokenize text).map (processedSent env lemmatized)

/-- `TextClassifier.tagged_sents`: `__preprocess_text(is_sent=True, tagged=True)`. -/
def tagged_sents (env : Env) (text : String) (lemmatized : Bool) :
    List (List (String × String)) :=
  (env.sentTokenize text).map (processedTaggedSent env lemmatized)

/-- `TextClassifier.words`: `__preprocess_text(is_sent=False, tagged=False)` —
the same processed sentences, with the tokens yielded one by one
(flattened). -/
def words (env : Env) (text : String) (lemmatized : Bool) : List String :=
  ((env.sentTokenize text).map (processedSent env lemmatized)).flatten

/-- `TextClassifier.tagged_words`: `__preprocess_text(is_sent=False, tagged=True)`. -/
def tagged_words (env : Env) (text : String) (lemmatized : Bool) :
    List (String × String) :=
  ((env.sentTokenize text).map (processedTaggedSent env lemmatized)).flatten

/-- The mutable state a `TextClassifier` instance owns: `__init__` stores the
document in `self.__text` (the lemmatizer and the vowel set it also stores
are stateless and modelled by `Env` and `pyVowels`). -/
structure TextClassifier where
  text : String

/-- State-passing form of the `sents` method: result paired with the
post-call instance state (the method body contains no field assignment). -/
def sentsM (env : Env) (c : TextClassifier) (lemmatized : Bool) :
    List (List String) × TextClassifier :=
  (sents env c.text lemmatized, c)

/-- State-passing form of the `tagged_sents` method. -/
def tagged_sentsM (env : Env) (c : TextClassifier) (lemmatized : Bool) :
    List (List (String × String)) × TextClassifier :=
  (tagged_sents env c.text lemmatized, c)

/-- State-passing form of the `words` method. -/
def wordsM (env : Env) (c : TextClassifier) (lemmatized : Bool) :
    List String × TextClassifier :=
  (words env c.text lemmatized, c)

/-- State-passing form of the `tagged_words` method. -/
def tagged_wordsM (env : Env) (c : TextClassifier) (lemmatized : Bool) :
    List (String × String) × TextClassifier :=
  (tagged_words env c.text lemmatized, c)

/-- `TextClassifier.has_peculiar_expression`: delegate to the regex engine
with the caller's pattern unchanged (`r"" + expression + ""` is the pattern
itself), the raw document, and the ignore-case flag set; `bool(...)` of the
optional match object is `Option.isSome`. A pattern-syntax error from the
engine propagates. -/
def has_peculiar_expression (env : Env) (text expression : String) :
    Except String Bool :=
  (env.reSearch expression text true).map Option.isSome

/-- `TextClassifier.count_syllables`: lower-case the word; if it is a key of
the pronouncing dictionary, count the phonemes of its first pronunciation
variant whose final character is a digit; otherwise count the characters of
the (lower-cased) word that are in the vowel set. -/
def count_syllables (env : Env) (word : String) : Nat :=
  let w := pyLower word
  if (env.pdict w).isSome then
    ((((env.pdict w).getD []).headD []).filter lastCharIsDigit).length
  else
    (w.toList.filter (fun c => pyVowels.contains c)).length

/-- C3: `count_syllables` described from the spec's words (§4.2): lower-case
the word; if it exists as a key in the pronouncing dictionary, take its
first pronunciation variant and count phonemes whose final character is a
digit; otherwise fall back to counting characters that are members of the
vowel set `{a, e, i, o, u, y}`. -/
def countSyllablesSpec (env : Env) (word : String) : Nat :=
  match env.pdict (pyLower word) with
  | some prons => ((prons.headD []).filter lastCharIsDigit).length
  | none => ((pyLower word).toList.filter (fun c => pyVowels.contains c)).length

/-- C4: `__lemmatize` described from the spec's words: attempt lemmatization
under the verb part-of-speech; if the result is unchanged from the input,
retry under the noun part-of-speech and use that result. -/
def lemmatizeSpec (env : Env) (word : String) : String :=
  if env.wnLemmatize word "v" = word then env.wnLemmatize word "n"
  else env.wnLemmatize word "v"

/-- `TextClassifier.calculate_sentence_reading_ease`: accumulate, over the
(non-lemmatized, untagged) sentences, the per-sentence Flesch term computed
from that sentence's alphabetic-only tokens, skipping sentences with none. -/
def calculate_sentence_reading_ease (env : Env) (text : String) : ℚ :=
  (sents env text false).foldl
    (fun reading_ease sent =>
      let ws := sent.filter pyIsAlpha
      if ws.isEmpty then reading_ease
      else
        let syllables := ws.map (count_syllables env)
        reading_ease + (206.835 - 1.015 * (ws.length : ℚ)
          - 84.6 * ((syllables.sum : ℚ) / (ws.length : ℚ))))
    0

/-- C2: the per-sentence Flesch term described from the spec's words: filter
the sentence to alphabetic-only tokens; if that filtered list is non-empty
the sentence contributes
`206.835 - 1.015 * word_count - 84.6 * (syllable_sum / word_count)`,
otherwise it contributes nothing. -/
def sentenceScoreSpec (env : Env) (sent : List String) : ℚ :=
  let ws := sent.filter pyIsAlpha
  if ws = [] then 0
  else 206.835 - 1.015 * (ws.length : ℚ)
    - 84.6 * (((ws.map (count_syllables env)).sum : ℚ) / (ws.length : ℚ))

/-- The runtime errors the metric calculations can surface: the
`ZeroDivisionError` Python raises on an unguarded `n / 0`, and the explicit
empty-input error the spec (§4.4–4.6, §7) requires instead. -/
inductive PyErr where
  | zeroDivisionError
  | emptyInputError
deriving DecidableEq

/-- Model of Python `round(x, 3)`: round `x * 1000` to the nearest integer
and divide back (half-point ties do not arise in any claim). -/
def pyRound3 (q : ℚ) : ℚ := (round (q * 1000) : ℤ) / 1000

/-- `TextClassifier.calculate_lexical_density_by_tags`:
`round(matching_tagged_words / total_tagged_words * 100, 3)`; the division
is unguarded, so zero tagged words raises `ZeroDivisionError`. -/
def calculate_lexical_density_by_tags (env : Env) (text : String)
    (tags_to_search : List String) : Except PyErr ℚ :=
  let total_tags := ((tagged_words env text false).filter
      (fun wt => tags_to_search.contains wt.2)).length
  let total_words := (tagged_words env text false).length
  if total_words = 0 then .error .zeroDivisionError
  else .ok (pyRound3 ((total_tags : ℚ) / (total_words : ℚ) * 100))

/-- `TextClassifier.calculate_words_frequency`:
`round(matching_words / total_words * 1000, 3)`; the division is unguarded,
so zero words raises `ZeroDivisionError`. -/
def calculate_words_frequency (env : Env) (text : String)
    (words_to_search : List String) : Except PyErr ℚ :=
  let total_peculiar_words := ((words env text false).filter
      (fun w => words_to_search.contains w)).length
  let total_words := (words env text false).length
  if total_words = 0 then .error .zeroDivisionError
  else .ok (pyRound3 ((total_peculiar_words : ℚ) / (total_words : ℚ) * 1000))

/-- `TextClassifier.calculate_type_token_ratio`: distinct lower-cased
lemmatized words over total lemmatized words; the division is unguarded, so
zero words raises `ZeroDivisionError`. -/
def calculate_type_token_ratio (env : Env) (text : String) : Except PyErr ℚ :=
  let word_list := (words env text true).map pyLower
  if word_list.length = 0 then .error .zeroDivisionError
  else .ok ((word_list.dedup.length : ℚ) / (word_list.length : ℚ))

/-- A toy regex engine for closed instantiations: patterns containing `'('`
are invalid; otherwise the pattern is taken literally and, with the
ignore-case flag, both pattern and text are lower-cased before the leftmost
substring occurrence is sought. -/
def toySearch (pat text : String) (ignoreCase : Bool) :
    Except String (Option Nat) :=
  if pat.toList.contains '(' then
    .error ("missing ), unterminated subpattern: " ++ pat)
  else
    let p := if ignoreCase then (pyLower pat).toList else pat.toList
    let t := if ignoreCase then (pyLower text).toList else text.toList
    .ok ((List.range (t.length + 1)).find? (fun i => (t.drop i).take p.length == p))

/-- A small concrete environment used to instantiate the universally
quantified theorems in closed corollaries: one sentence per document,
whitespace-free documents tokenize to themselves, every token is tagged
`"NN"`, the lemmatizer echoes its input, the pronouncing dictionary knows
only `"cat"`, and the regex engine is `toySearch`. -/
def envToy : Env where
  sentTokenize := fun t => if t = "" then [] else [t]
  wordTokenize := fun s => [s]
  posTag := fun ts => ts.map (fun w => (w, "NN"))
  wnLemmatize := fun w _ => w
  pdict := fun w => if w = "cat" then some [["K", "AE1", "T"]] else none
  reSearch := toySearch

/-- `Char.ofNat` of a valid scalar value decodes back to that value. -/
theorem char_toNat_ofNat {n : Nat} (hv : n.isValidChar) :
    (Char.ofNat n).toNat = n := by
  rw [Char.ofNat, dif_pos hv]
  rfl

/-- `pyLowerChar` maps into characters outside the ASCII uppercase range. -/
theorem pyLowerChar_idem (c : Char) : pyLowerChar (pyLowerChar c) = pyLowerChar c := by
  unfold pyLowerChar
  by_cases h : 65 ≤ c.toNat ∧ c.toNat ≤ 90
  · rw [if_pos h]
    have hv : Nat.isValidChar (c.toNat + 32) := Or.inl (by omega)
    have ht : (Char.ofNat (c.toNat + 32)).toNat = c.toNat + 32 := char_toNat_ofNat hv
    rw [if_neg (by rw [ht]; omega)]
  · rw [if_neg h, if_neg h]

/-- Python `str.lower` is idempotent in the ASCII model. -/
theorem pyLower_idem (s : String) : pyLower (pyLower s) = pyLower s := by
  simp only [pyLower, String.toList, List.map_map]
  congr 1
  exact List.map_congr_left (fun a _ => pyLowerChar_idem a)

/-- C4: for every word, the helper lemmatizes under the verb hint; exactly
when that result equals the input word it returns the noun-hint lemma,
otherwise the verb-hint lemma. -/
theorem lemmatize_verb_then_noun (env : Env) (word : String) :
    lemmatize env word = lemmatizeSpec env word := by
  unfold lemmatize lemmatizeSpec
  by_cases h : env.wnLemmatize word "v" = word <;> simp [h]

/-- C6: for every document (and either lemmatized flag), the number of items
yielded by `words()` equals the sum of the lengths of the sentences yielded
by `sents()`. -/
theorem words_length_eq_sum_sents_length (env : Env) (text : String)
    (lemmatized : Bool) :
    (words env text lemmatized).length
      = ((sents env text lemmatized).map List.length).sum := by
  unfold words sents
  exact List.length_flatten _

/-- C8: calling any of the four view methods twice with identical arguments
on the same instance yields identical sequences, and the instance state
after the two calls equals the initial state (the method bodies assign no
field). -/
theorem views_idempotent (env : Env) (c : TextClassifier) (lemmatized : Bool) :
    ((sentsM env (sentsM env c lemmatized).2 lemmatized).1
        = (sentsM env c lemmatized).1
      ∧ (sentsM env (sentsM env c lemmatized).2 lemmatized).2 = c)
    ∧ ((tagged_sentsM env (tagged_sentsM env c lemmatized).2 lemmatized).1
        = (tagged_sentsM env c lemmatized).1
      ∧ (tagged_sentsM env (tagged_sentsM env c lemmatized).2 lemmatized).2 = c)
    ∧ ((wordsM env (wordsM env c lemmatized).2 lemmatized).1
        = (wordsM env c lemmatized).1
      ∧ (wordsM env (wordsM env c lemmatized).2 lemmatized).2 = c)
    ∧ ((tagged_wordsM env (tagged_wordsM env c lemmatized).2 lemmatized).1
        = (tagged_wordsM env c lemmatized).1
      ∧ (tagged_wordsM env (tagged_wordsM env c lemmatized).2 lemmatized).2 = c) := by
  refine ⟨⟨rfl, rfl⟩, ⟨rfl, rfl⟩, ⟨rfl, rfl⟩, ⟨rfl, rfl⟩⟩

/-- C3: for every environment and word, `count_syllables` agrees with the
spec's contract (dictionary path on known words, vowel-count fallback on
unknown words); being a total `Nat`-valued function it is non-negative and
raises no error on unknown words. -/
theorem count_syllables_meets_contract (env : Env) (word : String) :
    count_syllables env word = countSyllablesSpec env word := by
  unfold count_syllables countSyllablesSpec
  cases h : env.pdict (pyLower word) <;> simp [h]

/-- C10: `count_syllables` is case-insensitive: its value on a word equals
its value on the lower-cased word, because the word is lower-cased before
any dictionary lookup or vowel counting. -/
theorem count_syllables_case_insensitive (env : Env) (word : String) :
    count_syllables env (pyLower word) = count_syllables env word := by
  unfold count_syllables
  rw [pyLower_idem]

/-- C5: on the empty document, whenever the external sentence splitter
yields no sentences for it, every view (sents, tagged_sents, words,
tagged_words, either lemmatized flag) produces the empty sequence; the
embedding is total, so no error is raised. -/
theorem empty_document_views_empty (env : Env) (lemmatized : Bool)
    (h : env.sentTokenize "" = []) :
    sents env "" lemmatized = [] ∧ tagged_sents env "" lemmatized = []
      ∧ words env "" lemmatized = [] ∧ tagged_words env "" lemmatized = [] := by
  simp [sents, tagged_sents, words, tagged_words, h]

/-- Closed instantiation of `empty_document_views_empty` at the concrete
environment `envToy`, for both values of the lemmatized flag. -/
theorem empty_document_views_empty_witness :
    (sents envToy "" false = [] ∧ tagged_sents envToy "" false = []
      ∧ words envToy "" false = [] ∧ tagged_words envToy "" false = [])
    ∧ (sents envToy "" true = [] ∧ tagged_sents envToy "" true = []
      ∧ words envToy "" true = [] ∧ tagged_words envToy "" true = []) :=
  ⟨empty_document_views_empty envToy false rfl,
   empty_document_views_empty envToy true rfl⟩

/-- C7: `has_peculiar_expression` hands the caller's pattern and the raw
document to the regex engine with the ignore-case flag set and returns the
boolean "a match exists somewhere" (or propagates the engine's
pattern-syntax error); instantiated at the concrete engine `envToy`,
pattern `"hello"` matches the document `"Well, HELLO there!"`
case-insensitively, fails to match `"Goodbye"`, and the invalid pattern
`"("` yields a pattern-syntax error. -/
theorem has_peculiar_expression_contract :
    (∀ (env : Env) (text pat : String),
        (∃ b, has_peculiar_expression env text pat = .ok b
          ∧ (b = true ↔ ∃ m, env.reSearch pat text true = .ok (some m)))
      ∨ (∃ e, has_peculiar_expression env text pat = .error e
          ∧ env.reSearch pat text true = .error e))
    ∧ has_peculiar_expression envToy "Well, HELLO there!" "hello" = .ok true
    ∧ has_peculiar_expression envToy "Goodbye" "hello" = .ok false
    ∧ has_peculiar_expression envToy "Goodbye" "("
        = .error "missing ), unterminated subpattern: (" := by
  refine ⟨?_, ?_, ?_, ?_⟩
  · intro env text pat
    cases h : env.reSearch pat text true with
    | ok o =>
      left
      refine ⟨o.isSome, ?_, ?_⟩
      · unfold has_peculiar_expression
        rw [h]
        rfl
      · cases o <;> simp [h]
    | error e =>
      right
      refine ⟨e, ?_, ?_⟩
      · unfold has_peculiar_expression
        rw [h]
        rfl
      · rfl
  · rfl
  · rfl
  · rfl

/-- C1 (divergence witness): with zero words, the three metric calculations
hit their unguarded division and surface the running ecosystem's
`ZeroDivisionError` — not the explicit empty-input error the spec requires
(the final conjunct separates the two error values). -/
theorem metrics_zero_words_raise_zero_division (env : Env) (text : String)
    (tags_to_search words_to_search : List String)
    (h : env.sentTokenize text = []) :
    calculate_lexical_density_by_tags env text tags_to_search
        = .error PyErr.zeroDivisionError
    ∧ calculate_words_frequency env text words_to_search
        = .error PyErr.zeroDivisionError
    ∧ calculate_type_token_ratio env text = .error PyErr.zeroDivisionError
    ∧ (Except.error PyErr.zeroDivisionError
        ≠ (Except.error PyErr.emptyInputError : Except PyErr ℚ)) := by
  refine ⟨?_, ?_, ?_, by simp⟩
  · simp [calculate_lexical_density_by_tags, tagged_words, h]
  · simp [calculate_words_frequency, words, h]
  · simp [calculate_type_token_ratio, words, h]

/-- Closed instantiation of `metrics_zero_words_raise_zero_division` on the
empty document in the concrete environment `envToy`. -/
theorem metrics_zero_words_raise_zero_division_witness :
    calculate_lexical_density_by_tags envToy "" ["NN"]
        = .error PyErr.zeroDivisionError
    ∧ calculate_words_frequency envToy "" ["hello"]
        = .error PyErr.zeroDivisionError
    ∧ calculate_type_token_ratio envToy "" = .error PyErr.zeroDivisionError := by
  have h := metrics_zero_words_raise_zero_division envToy "" ["NN"] ["hello"] rfl
  exact ⟨h.1, h.2.1, h.2.2.1⟩

/-- The reading-ease accumulation loop equals the sum of the per-sentence
scores, for any initial accumulator. -/
theorem reading_ease_foldl (env : Env) (l : List (List String)) (a : ℚ) :
    l.foldl
      (fun reading_ease sent =>
        let ws := sent.filter pyIsAlpha
        if ws.isEmpty then reading_ease
        else
          let syllables := ws.map (count_syllables env)
          reading_ease + (206.835 - 1.015 * (ws.length : ℚ)
            - 84.6 * ((syllables.sum : ℚ) / (ws.length : ℚ)))) a
      = a + (l.map (sentenceScoreSpec env)).sum := by
  induction l generalizing a with
  | nil => simp
  | cons s t ih =>
    rw [List.foldl_cons, ih, List.map_cons, List.sum_cons]
    unfold sentenceScoreSpec
    by_cases h : s.filter pyIsAlpha = []
    · simp [h]
    · have h2 : (s.filter pyIsAlpha).isEmpty = false := by
        simpa [List.isEmpty_iff] using h
      simp only [h2, if_neg h, Bool.false_eq_true, if_false]
      ring

/-- C2: for every document, `calculate_sentence_reading_ease` returns the
sum over the sentences of the per-sentence term
`206.835 - 1.015 * words - 84.6 * (syllables / words)` computed from that
sentence's alphabetic-only tokens, with empty-filter sentences contributing
nothing; an empty document (no sentences) yields 0. -/
theorem reading_ease_sums_per_sentence_scores (env : Env) (text : String) :
    calculate_sentence_reading_ease env text
        = ((sents env text false).map (sentenceScoreSpec env)).sum
    ∧ (env.sentTokenize text = [] → calculate_sentence_reading_ease env text = 0) := by
  have h1 : calculate_sentence_reading_ease env text
      = 0 + ((sents env text false).map (sentenceScoreSpec env)).sum := by
    unfold calculate_sentence_reading_ease
    exact reading_ease_foldl env (sents env text false) 0
  refine ⟨by rw [h1, zero_add], fun h => ?_⟩
  rw [h1]
  simp [sents, h]

/-- Closed instantiation of `reading_ease_sums_per_sentence_scores`: the
empty document in the concrete environment `envToy` scores 0. -/
theorem reading_ease_sums_per_sentence_scores_witness :
    calculate_sentence_reading_ease envToy "" = 0 :=
  (reading_ease_sums_per_sentence_scores envToy "").2 rfl

/-- Rounding to three decimals preserves non-negativity. -/
theorem pyRound3_nonneg {q : ℚ} (h : 0 ≤ q) : 0 ≤ pyRound3 q := by
  unfold pyRound3
  have hq : (0:ℚ) ≤ q * 1000 := by
    have := mul_nonneg h (by norm_num : (0:ℚ) ≤ 1000)
    linarith
  have h0 : (0:ℤ) ≤ round (q * 1000) := by
    rw [round_eq]
    exact Int.floor_nonneg.2 (by linarith)
  exact div_nonneg (by exact_mod_cast h0) (by norm_num)

/-- Rounding to three decimals preserves the upper bound 100. -/
theorem pyRound3_le_100 {q : ℚ} (h : q ≤ 100) : pyRound3 q ≤ 100 := by
  unfold pyRound3
  have hhalf : ⌊(1:ℚ)/2⌋ = 0 := by
    rw [Int.floor_eq_zero_iff]
    constructor <;> norm_num
  have h1 : round (q * 1000) ≤ 100000 := by
    rw [round_eq]
    have h2 : q * 1000 + 1/2 ≤ ((100000:ℤ):ℚ) + (1:ℚ)/2 := by push_cast; linarith
    calc ⌊q * 1000 + 1/2⌋ ≤ ⌊((100000:ℤ):ℚ) + (1:ℚ)/2⌋ := Int.floor_le_floor h2
      _ = 100000 + ⌊(1:ℚ)/2⌋ := Int.floor_int_add _ _
      _ = 100000 := by rw [hhalf, add_zero]
  rw [div_le_iff₀ (by norm_num : (0:ℚ) < 1000)]
  calc ((round (q * 1000) : ℤ) : ℚ) ≤ ((100000:ℤ):ℚ) := by exact_mod_cast h1
    _ = 100 * 1000 := by norm_num

/-- C9: for every document with at least one tagged word and every tag set,
`calculate_lexical_density_by_tags` returns a value between 0 and 100
inclusive, because the matching tagged-word count never exceeds the total
tagged-word count. -/
theorem lexical_density_bounds (env : Env) (text : String)
    (tags_to_search : List String)
    (h : (tagged_words env text false).length ≠ 0) :
    ∃ v : ℚ, calculate_lexical_density_by_tags env text tags_to_search = .ok v
      ∧ 0 ≤ v ∧ v ≤ 100 := by
  refine ⟨pyRound3
      ((((tagged_words env text false).filter
          (fun wt => tags_to_search.contains wt.2)).length : ℚ)
        / (((tagged_words env text false).length : ℚ)) * 100), ?_, ?_, ?_⟩
  · simp only [calculate_lexical_density_by_tags]
    rw [if_neg h]
  · apply pyRound3_nonneg
    positivity
  · apply pyRound3_le_100
    have hw : (0:ℚ) < ((tagged_words env text false).length : ℚ) := by
      exact_mod_cast Nat.pos_of_ne_zero h
    have ht : ((((tagged_words env text false).filter
          (fun wt => tags_to_search.contains wt.2)).length : ℚ))
        ≤ ((tagged_words env text false).length : ℚ) := by
      exact_mod_cast List.length_filter_le _ _
    have hr : ((((tagged_words env text false).filter
          (fun wt => tags_to_search.contains wt.2)).length : ℚ))
        / ((tagged_words env text false).length : ℚ) ≤ 1 :=
      (div_le_one hw).2 ht
    linarith

/-- Closed instantiation of `lexical_density_bounds`: the one-word document
`"cat"` in the concrete environment `envToy`. -/
theorem lexical_density_bounds_witness :
    ∃ v : ℚ, calculate_lexical_density_by_tags envToy "cat" ["NN"] = .ok v
      ∧ 0 ≤ v ∧ v ≤ 100 :=
  lexical_density_bounds envToy "cat" ["NN"] (by decide)
